import Mathlib

/-!
Shallow embedding of the jellycli fetch-orchestration layer
(src/api/jellyfin/item.go) together with the external collaborators it
uses (the models package, the entity cache and the remote catalog, which
are not part of the given sources and are therefore modelled from the
spec).  Remote responses and store failures are supplied by an explicit
environment, and every orchestrator function threads a state holding the
cache contents and a counter of CatalogSource queries issued.
-/

namespace Jellycli

/-- Modelled from the spec: error values (Go `error`) are carried as
plain description strings. -/
abbrev Err := String

/-- Modelled from the spec: `Identifier` is an opaque, comparable,
string-like value (models.Id, not under src). -/
abbrev Id := String

/-- Modelled from the spec: models.Artist (not under src): Identifier,
display name, server-advertised `AlbumCount`, nullable ordered album-id
list (`none` = not yet fetched, mirroring a nil Go slice). -/
structure Artist where
  id : Id
  name : String
  albumCount : Int
  albums : Option (List Id)
deriving DecidableEq, Repr

/-- Modelled from the spec: models.Album (not under src). -/
structure Album where
  id : Id
  name : String
  artist : Id
  songCount : Int
  songs : Option (List Id)
deriving DecidableEq, Repr

/-- Modelled from the spec: models.Song (not under src). -/
structure Song where
  id : Id
  name : String
  album : Id
  albumArtist : Id
  index : Int
deriving DecidableEq, Repr

/-- Modelled from the spec: models.Playlist (not under src). -/
structure Playlist where
  id : Id
  name : String
  songCount : Int
deriving DecidableEq, Repr

/-- Modelled from the spec: models.Item, polymorphic over the four
variants {Artist, Album, Song, Playlist}. -/
inductive Item where
  | artist (a : Artist)
  | album (a : Album)
  | song (s : Song)
  | playlist (p : Playlist)
deriving DecidableEq, Repr

/-- Modelled from the spec: models.ItemType, the type tag. -/
inductive ItemType where
  | typeArtist
  | typeAlbum
  | typeSong
  | typePlaylist
deriving DecidableEq, Repr

def Item.getId : Item → Id
  | .artist a => a.id
  | .album a => a.id
  | .song s => s.id
  | .playlist p => p.id

def Item.isAlbum : Item → Bool
  | .album _ => true
  | _ => false

def Item.isArtist : Item → Bool
  | .artist _ => true
  | _ => false

/-- Modelled from the spec: the media-type discriminator string for
artists (itemtype definitions are not under src). -/
def mediaTypeArtist : String := "MusicArtist"

/-- Modelled from the spec: the media-type discriminator string for
albums. -/
def mediaTypeAlbum : String := "MusicAlbum"

/-- Modelled from the spec: the media-type discriminator string for
songs. -/
def mediaTypeSong : String := "Audio"

/-- Modelled from the spec: the media-type discriminator string for
playlists. -/
def mediaTypePlaylist : String := "Playlist"

/-- Modelled from the spec: the artist dto of the jellyfin package and
its toArtist conversion (not under src); decoding a single-entity
payload yields the server fields with the child list still nil. -/
structure artistDto where
  id : Id
  name : String
  totalAlbums : Int
deriving DecidableEq, Repr

def artistDto.toArtist (d : artistDto) : Artist :=
  { id := d.id, name := d.name, albumCount := d.totalAlbums, albums := none }

/-- Modelled from the spec: the album dto and its toAlbum conversion
(not under src). -/
structure albumDto where
  id : Id
  name : String
  artist : Id
  songCount : Int
deriving DecidableEq, Repr

def albumDto.toAlbum (d : albumDto) : Album :=
  { id := d.id, name := d.name, artist := d.artist,
    songCount := d.songCount, songs := none }

/-- Modelled from the spec: the song dto and its toSong conversion (not
under src); the album-artist reference and ordinal index are filled in
later by the orchestrator. -/
structure songDto where
  id : Id
  name : String
  album : Id
deriving DecidableEq, Repr

def songDto.toSong (d : songDto) : Song :=
  { id := d.id, name := d.name, album := d.album, albumArtist := "", index := 0 }

/-- Modelled from the spec: the playlist dto and its toPlaylist
conversion (not under src). -/
structure playlistDto where
  id : Id
  name : String
  songCount : Int
deriving DecidableEq, Repr

def playlistDto.toPlaylist (d : playlistDto) : Playlist :=
  { id := d.id, name := d.name, songCount := d.songCount }

/-- The JSON value found at the "Type" key of a single-entity payload:
absent, a string, or some non-string value. -/
inductive JsonField where
  | absent
  | str (s : String)
  | nonString
deriving DecidableEq, Repr

instance {ε α : Type} [DecidableEq ε] [DecidableEq α] : DecidableEq (Except ε α) := fun a b =>
  match a, b with
  | .error x, .error y =>
      if h : x = y then .isTrue (by rw [h]) else .isFalse (fun hc => by cases hc; exact h rfl)
  | .error _, .ok _ => .isFalse (fun hc => by cases hc)
  | .ok _, .error _ => .isFalse (fun hc => by cases hc)
  | .ok x, .ok y =>
      if h : x = y then .isTrue (by rw [h]) else .isFalse (fun hc => by cases hc; exact h rfl)

/-- A raw single-entity payload as seen by GetItem: the type
discriminator field plus the outcome of decoding the body as each dto
variant (json.Decoder runs on the same bytes for every variant). -/
structure Payload where
  typeField : JsonField
  asArtist : Except Err artistDto
  asAlbum : Except Err albumDto
  asSong : Except Err songDto
  asPlaylist : Except Err playlistDto
deriving DecidableEq, Repr

/-- The albums listing dto (jellyfin package, not under src): decoded
album dtos plus TotalRecordCount. -/
structure albumsDto where
  albums : List albumDto
  totalAlbums : Int
deriving DecidableEq, Repr

/-- The songs listing dto (jellyfin package, not under src): decoded
song dtos plus TotalRecordCount. -/
structure songsDto where
  songs : List songDto
  totalSongs : Int
deriving DecidableEq, Repr

/-- Modelled from the spec: the EntityStore's keyed slots, most recent
write first. -/
abbrev Cache := List (Id × Item)

/-- Modelled from the spec: EntityStore.Get — returns the last-written
entity for the id, or a miss. -/
def cacheGet (c : Cache) (id : Id) : Option Item :=
  (c.find? (fun e => e.1 == id)).map (fun e => e.2)

/-- Modelled from the spec: EntityStore.Put — with overwrite it replaces
unconditionally; without, an existing entry makes the call a no-op. -/
def cachePut (c : Cache) (id : Id) (item : Item) (overwrite : Bool) : Cache :=
  if (cacheGet c id).isSome && !overwrite then c
  else (id, item) :: c.filter (fun e => !(e.1 == id))

/-- Modelled from the spec: EntityStore.Delete — removes an entity,
idempotent. -/
def cacheDelete (c : Cache) (id : Id) : Cache :=
  c.filter (fun e => !(e.1 == id))

/-- Modelled from the spec: the sequential writes performed by a
successful EntityStore.PutBatch. -/
def putBatchApply (c : Cache) (items : List Item) (overwrite : Bool) : Cache :=
  items.foldl (fun c it => cachePut c it.getId it overwrite) c

/-- Modelled from the spec: CompletenessPolicy.ArtistComplete — the
Albums list is non-null and its length equals AlbumCount (also the
inline check of Jellyfin.GetArtist). -/
def ArtistComplete (a : Artist) : Bool :=
  match a.albums with
  | none => false
  | some l => (l.length : Int) == a.albumCount

/-- Modelled from the spec: CompletenessPolicy.AlbumComplete — the Songs
list is non-null and its length equals SongCount (also the inline check
of Jellyfin.GetAlbum). -/
def AlbumComplete (a : Album) : Bool :=
  match a.songs with
  | none => false
  | some l => (l.length : Int) == a.songCount

/-- Modelled from the spec: the environment a Jellyfin client runs
against — the remote CatalogSource responses for each endpoint (outer
Except: transport failure; inner Except where present: body decode
failure) and the occurrence of EntityStore batch-write failures. -/
structure Env where
  fetchItem : Id → Except Err Payload
  fetchArtistAlbums : Id → Except Err (Except Err albumsDto)
  fetchAlbumSongs : Id → Except Err (Except Err songsDto)
  fetchPlaylistSongs : Id → Except Err (Except Err songsDto)
  fetchSongs : Int → Int → Except Err (Except Err songsDto)
  fetchSongsByIds : List Id → Except Err (Except Err songsDto)
  putBatchFails : List Item → Bool

/-- The observable client state: cache contents and the number of
CatalogSource queries issued so far. -/
structure JState where
  cache : Cache
  queries : Nat
deriving DecidableEq, Repr

/-- Issue one CatalogSource query (every a.get call). -/
def getQ (st : JState) : JState :=
  { st with queries := st.queries + 1 }

/-- getItemType (src/api/jellyfin/item.go:35-51): read the "Type" field
of the payload; fail when it is absent or not a string; recognize the
artist, album and song media types — and only those three. -/
def getItemType (p : Payload) : Except Err ItemType :=
  match p.typeField with
  | .str text =>
    if text = mediaTypeArtist then .ok .typeArtist
    else if text = mediaTypeAlbum then .ok .typeAlbum
    else if text = mediaTypeSong then .ok .typeSong
    else .error ("unknown type: " ++ text)
  | _ => .error "invalid type"

/-- Jellyfin.GetItem (src/api/jellyfin/item.go:53-120): cache hit returns
the resident item; otherwise fetch the raw payload, dispatch decode on
the discriminator, store the item with overwrite and return it. -/
def GetItem (env : Env) (st : JState) (id : Id) : (Option Item × Option Err) × JState :=
  match cacheGet st.cache id with
  | some item => ((some item, none), st)
  | none =>
    let st1 := getQ st
    match env.fetchItem id with
    | .error e => ((none, some ("get item by id: " ++ e)), st1)
    | .ok p =>
      match getItemType p with
      | .error e => ((none, some ("invalid item type: " ++ e)), st1)
      | .ok t =>
        match t with
        | .typeSong =>
          match p.asSong with
          | .error e => ((none, some ("decode song: " ++ e)), st1)
          | .ok d =>
            let item := Item.song d.toSong
            ((some item, none), { st1 with cache := cachePut st1.cache id item true })
        | .typeAlbum =>
          match p.asAlbum with
          | .error e => ((none, some ("decode album: " ++ e)), st1)
          | .ok d =>
            let item := Item.album d.toAlbum
            ((some item, none), { st1 with cache := cachePut st1.cache id item true })
        | .typeArtist =>
          match p.asArtist with
          | .error e => ((none, some ("decode artist: " ++ e)), st1)
          | .ok d =>
            let item := Item.artist d.toArtist
            ((some item, none), { st1 with cache := cachePut st1.cache id item true })
        | .typePlaylist =>
          match p.asPlaylist with
          | .error e => ((none, some ("decode playlist: " ++ e)), st1)
          | .ok d =>
            let item := Item.playlist d.toPlaylist
            ((some item, none), { st1 with cache := cachePut st1.cache id item true })

/-- Jellyfin.parseAlbums (src/api/jellyfin/item.go:535-550): decode the
albums listing body into model albums plus the total record count. -/
def parseAlbums (resp : Except Err albumsDto) : Except Err (List Album × Int) :=
  match resp with
  | .error e => .error ("decode json: " ++ e)
  | .ok dto => .ok (dto.albums.map albumDto.toAlbum, dto.totalAlbums)

/-- The value part of Jellyfin.GetArtistAlbums (src/api/jellyfin/item.go:
188-204), a pure function of the environment: a transport failure is
returned, but the parseAlbums error is discarded — the function returns
a nil slice and a nil error in that case (line 203 returns nil
unconditionally). -/
def getArtistAlbumsRes (env : Env) (id : Id) : List Album × Option Err :=
  match env.fetchArtistAlbums id with
  | .error e => ([], some ("get artist albums: " ++ e))
  | .ok resp =>
    match parseAlbums resp with
    | .error _ => ([], none)
    | .ok (albums, _) => (albums, none)

/-- Jellyfin.GetArtistAlbums (src/api/jellyfin/item.go:188-204): one
listing query; never touches the cache. -/
def GetArtistAlbums (env : Env) (st : JState) (id : Id) :
    (List Album × Option Err) × JState :=
  (getArtistAlbumsRes env id, getQ st)

/-- The miss/invalid path of Jellyfin.GetArtist (src/api/jellyfin/item.go:
148-184): fetch and decode the artist entity, fetch its albums, batch-
write the albums, attach the album-id list and store the artist. -/
def getArtistFetch (env : Env) (st : JState) (id : Id) : (Artist × Option Err) × JState :=
  let st1 := getQ st
  match env.fetchItem id with
  | .error e => ((⟨"", "", 0, none⟩, some ("get artist: " ++ e)), st1)
  | .ok p =>
    match p.asArtist with
    | .error e => ((⟨"", "", 0, none⟩, some ("parse artist: " ++ e)), st1)
    | .ok dto =>
      let ar := artistDto.toArtist dto
      match GetArtistAlbums env st1 id with
      | ((_, some e), st2) => ((ar, some ("get artist albums: " ++ e)), st2)
      | ((albums, none), st2) =>
        let ids := albums.map Album.id
        let items := albums.map Item.album
        if env.putBatchFails items then
          ((ar, some "store artist albums to cache: StoreError"), st2)
        else
          let ar2 := { ar with albums := some ids }
          ((ar2, none),
           { st2 with cache := cachePut (putBatchApply st2.cache items true) id (.artist ar2) true })

/-- Jellyfin.GetArtist (src/api/jellyfin/item.go:131-185): return the
cached artist when the resident item is an artist whose album list is
attached and matches AlbumCount; evict the slot on a type mismatch or a
stale count; fall through to the fetch path otherwise. -/
def GetArtist (env : Env) (st : JState) (id : Id) : (Artist × Option Err) × JState :=
  match cacheGet st.cache id with
  | some (Item.artist ar) =>
    match ar.albums with
    | some albs =>
      if (albs.length : Int) = ar.albumCount then ((ar, none), st)
      else getArtistFetch env { st with cache := cacheDelete st.cache id } id
    | none => getArtistFetch env st id
  | some _ => getArtistFetch env { st with cache := cacheDelete st.cache id } id
  | none => getArtistFetch env st id

/-- The value part of Jellyfin.GetAlbumSongs (src/api/jellyfin/item.go:
266-293), a pure function of the environment. -/
def getAlbumSongsRes (env : Env) (albumId : Id) : List Song × Option Err :=
  match env.fetchAlbumSongs albumId with
  | .error e => ([], some ("get album Songs; " ++ e))
  | .ok (.error e) => ([], some ("failed to parse Songs: " ++ e))
  | .ok (.ok dto) => (dto.songs.map songDto.toSong, none)

/-- Jellyfin.GetAlbumSongs (src/api/jellyfin/item.go:266-293): one
listing query; on success each decoded song is also written into the
cache (overwrite) before the list is returned. -/
def GetAlbumSongs (env : Env) (st : JState) (albumId : Id) :
    (List Song × Option Err) × JState :=
  let st1 := getQ st
  match getAlbumSongsRes env albumId with
  | (songs, none) =>
    ((songs, none),
     { st1 with cache := songs.foldl (fun c s => cachePut c s.id (.song s) true) st1.cache })
  | (songs, some e) => ((songs, some e), st1)

/-- The miss/invalid path of Jellyfin.GetAlbum (src/api/jellyfin/item.go:
223-262): fetch and decode the album entity, fetch its songs, set each
song's album artist, batch-write the songs, then set SongCount to the
number of songs actually fetched, attach the song-id list and store the
album.  Go mutates the fetched songs in place before the batch write;
since the batch write re-stores the same ids with overwrite, applying
the update before the write yields the same final cache. -/
def getAlbumFetch (env : Env) (st : JState) (id : Id) : (Album × Option Err) × JState :=
  let st1 := getQ st
  match env.fetchItem id with
  | .error e => ((⟨"", "", "", 0, none⟩, some ("get album: " ++ e)), st1)
  | .ok p =>
    match p.asAlbum with
    | .error e => ((⟨"", "", "", 0, none⟩, some ("parse album: " ++ e)), st1)
    | .ok dto =>
      let al := albumDto.toAlbum dto
      match GetAlbumSongs env st1 id with
      | ((_, some e), st2) => ((al, some ("get albums songs: " ++ e)), st2)
      | ((songs0, none), st2) =>
        let songs := songs0.map (fun s => { s with albumArtist := al.artist })
        let ids := songs.map Song.id
        let items := songs.map Item.song
        if env.putBatchFails items then
          ((al, some "store artist albums to cache: StoreError"), st2)
        else
          let al2 := { al with songCount := (ids.length : Int), songs := some ids }
          ((al2, none),
           { st2 with cache := cachePut (putBatchApply st2.cache items true) id (.album al2) true })

/-- Jellyfin.GetAlbum (src/api/jellyfin/item.go:206-263): return the
cached album when the resident item is an album whose song list is
attached and matches SongCount; evict the slot on a type mismatch or a
stale count; fall through to the fetch path otherwise. -/
def GetAlbum (env : Env) (st : JState) (id : Id) : (Album × Option Err) × JState :=
  match cacheGet st.cache id with
  | some (Item.album al) =>
    match al.songs with
    | some sl =>
      if (sl.length : Int) = al.songCount then ((al, none), st)
      else getAlbumFetch env { st with cache := cacheDelete st.cache id } id
    | none => getAlbumFetch env st id
  | some _ => getAlbumFetch env { st with cache := cacheDelete st.cache id } id
  | none => getAlbumFetch env st id

/-- Jellyfin.GetPlaylistSongs (src/api/jellyfin/item.go:377-402): one
listing query; the decoded songs are returned without being written to
the cache. -/
def GetPlaylistSongs (env : Env) (st : JState) (playlistId : Id) :
    (List Song × Option Err) × JState :=
  let st1 := getQ st
  match env.fetchPlaylistSongs playlistId with
  | .error e => (([], some e), st1)
  | .ok (.error e) => (([], some ("decode json: " ++ e)), st1)
  | .ok (.ok dto) => ((dto.songs.map songDto.toSong, none), st1)

/-- Jellyfin.GetSongs (src/api/jellyfin/item.go:405-438): one listing
query with Limit = pageSize and StartIndex = page * pageSize; each
returned song's Index is set to pageSize * pageSize + i + 1 (the literal
expression on line 434). -/
def GetSongs (env : Env) (st : JState) (page pageSize : Int) :
    ((List Song × Int) × Option Err) × JState :=
  let st1 := getQ st
  match env.fetchSongs pageSize (page * pageSize) with
  | .error e => ((([], 0), some e), st1)
  | .ok (.error e) => ((([], 0), some ("decode json: " ++ e)), st1)
  | .ok (.ok dto) =>
    let songs := dto.songs.enum.map
      (fun p => { songDto.toSong p.2 with index := pageSize * pageSize + (p.1 : Int) + 1 })
    (((songs, dto.totalSongs), none), st1)

/-- Jellyfin.GetSongsById (src/api/jellyfin/item.go:440-483): an empty
id list is rejected before the remote query is issued; otherwise one
listing query, with each song's Index set to i + 1. -/
def GetSongsById (env : Env) (st : JState) (ids : List Id) :
    (List Song × Option Err) × JState :=
  if ids.length = 0 then (([], some "ids cannot be empty"), st)
  else
    let st1 := getQ st
    match env.fetchSongsByIds ids with
    | .error e => (([], some e), st1)
    | .ok (.error e) => (([], some ("decode json: " ++ e)), st1)
    | .ok (.ok dto) =>
      ((dto.songs.enum.map (fun p => { songDto.toSong p.2 with index := (p.1 : Int) + 1 }), none), st1)

/-- Jellyfin.GetSongArtistAlbum (src/api/jellyfin/item.go:674-710): two
sequential GetItem hops (song's album id, then album's artist id); a
hop that errors or resolves to the wrong variant yields (nil, nil,
non-nil error); success re-puts each resolved item by its own id. -/
def GetSongArtistAlbum (env : Env) (st : JState) (s : Song) :
    (Option Album × Option Artist × Option Err) × JState :=
  match GetItem env st s.album with
  | ((_, some e), st1) => ((none, none, some e), st1)
  | ((it, none), st1) =>
    match it with
    | some (Item.album al) =>
      let st2 := { st1 with cache := cachePut st1.cache al.id (.album al) true }
      match GetItem env st2 al.artist with
      | ((_, some _), st3) => ((none, none, some "not found"), st3)
      | ((it2, none), st3) =>
        match it2 with
        | some (Item.artist ar) =>
          ((some al, some ar, none),
           { st3 with cache := cachePut st3.cache ar.id (.artist ar) true })
        | _ => ((none, none, some "not found"), st3)
    | _ => ((none, none, some "album not found"), st1)

/-- The hop-failure condition of the C5 claim, mirroring the hop
structure of GetSongArtistAlbum: the first GetItem errors or resolves to
a non-album, or the second GetItem (run from the state after the album
re-put) errors or resolves to a non-artist. -/
def sgaaHopFails (env : Env) (st : JState) (s : Song) : Bool :=
  match GetItem env st s.album with
  | ((some (Item.album al), none), st1) =>
    let st2 := { st1 with cache := cachePut st1.cache al.id (.album al) true }
    match GetItem env st2 al.artist with
    | ((some (Item.artist _), none), _) => false
    | _ => true
  | _ => true

/-- Whether the cache slot for an id holds a cache-complete artist —
exactly the condition under which GetArtist returns without issuing any
CatalogSource query. -/
def hasCompleteArtist (c : Cache) (id : Id) : Bool :=
  match cacheGet c id with
  | some (Item.artist a) => ArtistComplete a
  | _ => false

/-- A fresh client: empty cache, no queries issued. -/
def emptyState : JState := ⟨[], 0⟩

/-- An environment whose every remote endpoint fails and whose batch
writes succeed; concrete scenarios override the endpoints they use. -/
def noEnv : Env :=
  ⟨fun _ => .error "unreachable", fun _ => .error "unreachable", fun _ => .error "unreachable",
   fun _ => .error "unreachable", fun _ _ => .error "unreachable", fun _ => .error "unreachable",
   fun _ => false⟩

/-- A single-entity payload carrying an artist. -/
def artistPayload (d : artistDto) : Payload :=
  ⟨.str mediaTypeArtist, .ok d, .error "not an album", .error "not a song", .error "not a playlist"⟩

/-- A single-entity payload carrying an album. -/
def albumPayload (d : albumDto) : Payload :=
  ⟨.str mediaTypeAlbum, .error "not an artist", .ok d, .error "not a song", .error "not a playlist"⟩

/-- A single-entity payload carrying a playlist. -/
def playlistPayload (d : playlistDto) : Payload :=
  ⟨.str mediaTypePlaylist, .error "not an artist", .error "not an album", .error "not a song", .ok d⟩

/-- Scenario: the server advertises AlbumCount = 2 for artist a1 but the
album listing returns a single album. -/
def driftEnv : Env :=
  { noEnv with
    fetchItem := fun id => if id = "a1" then .ok (artistPayload ⟨"a1", "Arty", 2⟩) else .error "absent",
    fetchArtistAlbums := fun id =>
      if id = "a1" then .ok (.ok ⟨[⟨"b1", "Alb", "a1", 3⟩], 1⟩) else .error "absent" }

/-- Scenario: the server-advertised AlbumCount for artist a1 equals the
number of albums the listing returns. -/
def matchedEnv : Env :=
  { noEnv with
    fetchItem := fun id => if id = "a1" then .ok (artistPayload ⟨"a1", "Arty", 1⟩) else .error "absent",
    fetchArtistAlbums := fun id =>
      if id = "a1" then .ok (.ok ⟨[⟨"b1", "Alb", "a1", 3⟩], 1⟩) else .error "absent" }

/-- The artist a successful GetArtist returns under matchedEnv. -/
def c1Artist : Artist := ⟨"a1", "Arty", 1, some ["b1"]⟩

/-- The client state after the first GetArtist under matchedEnv. -/
def c1State1 : JState :=
  ⟨[("a1", Item.artist c1Artist), ("b1", Item.album ⟨"b1", "Alb", "a1", 3, none⟩)], 2⟩

/-- Scenario: album al1 resolves remotely with one song. -/
def c2Env : Env :=
  { noEnv with
    fetchItem := fun id => if id = "al1" then .ok (albumPayload ⟨"al1", "Album1", "ar1", 5⟩) else .error "absent",
    fetchAlbumSongs := fun id =>
      if id = "al1" then .ok (.ok ⟨[⟨"s1", "Song1", "al1"⟩], 1⟩) else .error "absent" }

/-- The album a successful GetAlbum returns under c2Env. -/
def c2Album : Album := ⟨"al1", "Album1", "ar1", 1, some ["s1"]⟩

/-- The client state after the first GetAlbum under c2Env. -/
def c2State1 : JState :=
  ⟨[("al1", Item.album c2Album), ("s1", Item.song ⟨"s1", "Song1", "al1", "ar1", 0⟩)], 2⟩

/-- A cache whose slot for id x1 holds a Song. -/
def c3State : JState := ⟨[("x1", Item.song ⟨"x1", "Stray", "al9", "", 0⟩)], 0⟩

/-- Scenario: id x1 resolves remotely to an artist with no albums. -/
def c3Env : Env :=
  { noEnv with
    fetchItem := fun id => if id = "x1" then .ok (artistPayload ⟨"x1", "Healed", 0⟩) else .error "absent",
    fetchArtistAlbums := fun id => if id = "x1" then .ok (.ok ⟨[], 0⟩) else .error "absent" }

/-- The artist the self-healing fetch returns under c3Env. -/
def c3Artist : Artist := ⟨"x1", "Healed", 0, some []⟩

/-- The client state after the self-healing GetArtist under c3Env. -/
def c3State1 : JState := ⟨[("x1", Item.artist c3Artist)], 2⟩

/-- Scenario: artist a1 resolves remotely but every batch write fails. -/
def c4Env : Env :=
  { noEnv with
    fetchItem := fun id => if id = "a1" then .ok (artistPayload ⟨"a1", "Arty", 1⟩) else .error "absent",
    fetchArtistAlbums := fun id =>
      if id = "a1" then .ok (.ok ⟨[⟨"b1", "Alb", "a1", 0⟩], 1⟩) else .error "absent",
    putBatchFails := fun _ => true }

/-- A song whose album id cannot be fetched under noEnv. -/
def c5Song : Song := ⟨"s1", "Track", "alX", "", 0⟩

/-- A payload whose type discriminator names the playlist variant and
whose body decodes as a playlist. -/
def c6Payload : Payload := playlistPayload ⟨"p1", "List", 3⟩

/-- Scenario: id p1 resolves remotely to a playlist payload. -/
def c6Env : Env :=
  { noEnv with fetchItem := fun id => if id = "p1" then .ok c6Payload else .error "absent" }

/-- Scenario: playlist p1 has one song, s1. -/
def c7Env : Env :=
  { noEnv with
    fetchPlaylistSongs := fun id =>
      if id = "p1" then .ok (.ok ⟨[⟨"s1", "Song1", "al1"⟩], 1⟩) else .error "absent" }

/-- Scenario: album al1 has one song, s1. -/
def c7wEnv : Env :=
  { noEnv with
    fetchAlbumSongs := fun id =>
      if id = "al1" then .ok (.ok ⟨[⟨"s1", "Song1", "al1"⟩], 1⟩) else .error "absent" }

/-- The songs GetAlbumSongs returns under c7wEnv. -/
def c7Songs : List Song := [⟨"s1", "Song1", "al1", "", 0⟩]

/-- The client state after GetAlbumSongs under c7wEnv. -/
def c7State1 : JState := ⟨[("s1", Item.song ⟨"s1", "Song1", "al1", "", 0⟩)], 1⟩

/-- Scenario: the albums listing transport succeeds but its body fails
to decode. -/
def c8Env : Env :=
  { noEnv with fetchArtistAlbums := fun _ => .ok (.error "unexpected end of JSON input") }

/-- Scenario: the paged songs listing for Limit 3, StartIndex 6 returns
two songs. -/
def c9Env : Env :=
  { noEnv with
    fetchSongs := fun limit start =>
      if limit = 3 ∧ start = 6 then .ok (.ok ⟨[⟨"s1", "S1", "b1"⟩, ⟨"s2", "S2", "b1"⟩], 2⟩)
      else .error "unexpected params" }

theorem cacheGet_cachePut_self (c : Cache) (id : Id) (it : Item) :
    cacheGet (cachePut c id it true) id = some it := by
  simp [cacheGet, cachePut, List.find?]

theorem cacheGet_cacheDelete_self (c : Cache) (id : Id) :
    cacheGet (cacheDelete c id) id = none := by
  simp only [cacheGet, cacheDelete, Option.map_eq_none', List.find?_eq_none, List.mem_filter]
  intro e he
  simp only [Bool.not_eq_true'] at he
  simp [he.2]

theorem cacheGet_isSome_iff (c : Cache) (x : Id) :
    (cacheGet c x).isSome = true ↔ ∃ e ∈ c, e.1 = x := by
  simp [cacheGet, List.find?_isSome]

theorem cacheGet_cachePut_isSome (c : Cache) (id : Id) (it : Item) (b : Bool) (x : Id)
    (hx : (cacheGet c x).isSome = true) :
    (cacheGet (cachePut c id it b) x).isSome = true := by
  unfold cachePut
  split
  · exact hx
  · rw [cacheGet_isSome_iff] at hx ⊢
    obtain ⟨e, he, hex⟩ := hx
    by_cases hxi : x = id
    · exact ⟨(id, it), List.mem_cons_self _ _, hxi.symm⟩
    · refine ⟨e, List.mem_cons_of_mem _ ?_, hex⟩
      rw [List.mem_filter]
      refine ⟨he, ?_⟩
      simp [hex, hxi]

theorem cacheGet_cachePut_self_isSome (c : Cache) (id : Id) (it : Item) (b : Bool) :
    (cacheGet (cachePut c id it b) id).isSome = true := by
  unfold cachePut
  split
  · rename_i hcond
    simp only [Bool.and_eq_true] at hcond
    exact hcond.1
  · rw [cacheGet_isSome_iff]
    exact ⟨(id, it), List.mem_cons_self _ _, rfl⟩

theorem foldl_songPut_preserves (l : List Song) (c : Cache) (x : Id)
    (hx : (cacheGet c x).isSome = true) :
    (cacheGet (l.foldl (fun c s => cachePut c s.id (Item.song s) true) c) x).isSome = true := by
  induction l generalizing c with
  | nil => exact hx
  | cons a rest ih => exact ih _ (cacheGet_cachePut_isSome _ _ _ _ _ hx)

theorem foldl_songPut_mem (l : List Song) (c : Cache) (s : Song) (hs : s ∈ l) :
    (cacheGet (l.foldl (fun c s => cachePut c s.id (Item.song s) true) c) s.id).isSome = true := by
  induction l generalizing c with
  | nil => cases hs
  | cons a rest ih =>
    rcases List.mem_cons.mp hs with h | h
    · subst h
      exact foldl_songPut_preserves rest _ _ (cacheGet_cachePut_self_isSome _ _ _ _)
    · exact ih _ h

theorem getArtistFetch_stored (env : Env) (st : JState) (id : Id) (ar : Artist) (st1 : JState)
    (h : getArtistFetch env st id = ((ar, none), st1)) :
    cacheGet st1.cache id = some (Item.artist ar) := by
  unfold getArtistFetch at h
  rcases hf : env.fetchItem id with e | p
  · rw [hf] at h; simp at h
  · rw [hf] at h
    dsimp only at h
    rcases ha : p.asArtist with e | d
    · rw [ha] at h; simp at h
    · rw [ha] at h
      dsimp only at h
      unfold GetArtistAlbums at h
      rcases hres : getArtistAlbumsRes env id with ⟨albums, e⟩
      rw [hres] at h
      rcases e with _ | e0
      · by_cases hpb : env.putBatchFails (albums.map Item.album) = true
        · simp only [hpb, if_true] at h
          simp at h
        · simp only [hpb] at h
          simp only [Bool.false_eq_true, if_false, Prod.mk.injEq] at h
          obtain ⟨⟨h1, _⟩, h2⟩ := h
          subst h1; subst h2
          exact cacheGet_cachePut_self _ _ _
      · simp at h

theorem GetArtist_cached_complete (env : Env) (st : JState) (id : Id) (ar : Artist)
    (hc : cacheGet st.cache id = some (Item.artist ar))
    (hcomp : ArtistComplete ar = true) :
    GetArtist env st id = ((ar, none), st) := by
  unfold GetArtist
  rw [hc]
  unfold ArtistComplete at hcomp
  match hal : ar.albums with
  | none => rw [hal] at hcomp; simp at hcomp
  | some l =>
    rw [hal] at hcomp
    simp only [beq_iff_eq] at hcomp
    simp [hal, hcomp]

theorem getArtistFetch_queries (env : Env) (st : JState) (id : Id) :
    st.queries < (getArtistFetch env st id).2.queries := by
  unfold getArtistFetch
  rcases hf : env.fetchItem id with e | p
  · simp [getQ]
  · dsimp only
    rcases ha : p.asArtist with e | d
    · simp [getQ]
    · dsimp only
      unfold GetArtistAlbums
      rcases hres : getArtistAlbumsRes env id with ⟨albums, e⟩
      rcases e with _ | e0
      · dsimp only
        by_cases hpb : env.putBatchFails (albums.map Item.album) = true
        · simp [hpb, getQ]; omega
        · simp [hpb, getQ]; omega
      · simp [getQ]; omega

theorem getArtist_noncomplete_queries (env : Env) (st : JState) (id : Id)
    (hmiss : hasCompleteArtist st.cache id = false) :
    st.queries < (GetArtist env st id).2.queries := by
  unfold hasCompleteArtist at hmiss
  unfold GetArtist
  rcases hget : cacheGet st.cache id with _ | it
  · exact getArtistFetch_queries env st id
  · rw [hget] at hmiss
    cases it with
    | artist ar =>
      dsimp only at hmiss ⊢
      match hal : ar.albums with
      | none => exact getArtistFetch_queries env st id
      | some albs =>
        by_cases hlen : (albs.length : Int) = ar.albumCount
        · exfalso
          simp [ArtistComplete, hal, hlen] at hmiss
        · simp only [hlen, if_false]
          exact getArtistFetch_queries env { cache := cacheDelete st.cache id, queries := st.queries } id
    | album a =>
      dsimp only
      exact getArtistFetch_queries env { cache := cacheDelete st.cache id, queries := st.queries } id
    | song s =>
      dsimp only
      exact getArtistFetch_queries env { cache := cacheDelete st.cache id, queries := st.queries } id
    | playlist p =>
      dsimp only
      exact getArtistFetch_queries env { cache := cacheDelete st.cache id, queries := st.queries } id

theorem getArtistFetch_batch_fail (env : Env) (st : JState) (id : Id) (p : Payload) (dto : artistDto)
    (hfetch : env.fetchItem id = .ok p)
    (hdec : p.asArtist = .ok dto)
    (halb : (getArtistAlbumsRes env id).2 = none)
    (hfail : env.putBatchFails ((getArtistAlbumsRes env id).1.map Item.album) = true) :
    getArtistFetch env st id =
      ((artistDto.toArtist dto, some "store artist albums to cache: StoreError"), getQ (getQ st)) := by
  unfold getArtistFetch
  rw [hfetch]
  dsimp only
  rw [hdec]
  dsimp only
  unfold GetArtistAlbums
  rcases hres : getArtistAlbumsRes env id with ⟨albums, e⟩
  rw [hres] at halb hfail
  obtain rfl : e = none := by simpa using halb
  have hfail' : env.putBatchFails (albums.map Item.album) = true := by simpa using hfail
  dsimp only
  simp [hfail']

theorem getArtist_batch_fail_aux (env : Env) (st' : JState) (id : Id) (p : Payload) (dto : artistDto)
    (hfetch : env.fetchItem id = .ok p)
    (hdec : p.asArtist = .ok dto)
    (halb : (getArtistAlbumsRes env id).2 = none)
    (hfail : env.putBatchFails ((getArtistAlbumsRes env id).1.map Item.album) = true)
    (hmiss' : hasCompleteArtist st'.cache id = false) :
    (getArtistFetch env st' id).1.2 ≠ none ∧
    hasCompleteArtist (getArtistFetch env st' id).2.cache id = false ∧
    (getArtistFetch env st' id).2.queries <
      (GetArtist env (getArtistFetch env st' id).2 id).2.queries := by
  rw [getArtistFetch_batch_fail env st' id p dto hfetch hdec halb hfail]
  refine ⟨by simp, ?_, ?_⟩
  · simpa [getQ] using hmiss'
  · exact getArtist_noncomplete_queries env _ id (by simpa [getQ] using hmiss')

theorem getAlbumFetch_stored (env : Env) (st : JState) (id : Id) (al : Album) (st1 : JState)
    (h : getAlbumFetch env st id = ((al, none), st1)) :
    cacheGet st1.cache id = some (Item.album al) ∧ AlbumComplete al = true := by
  unfold getAlbumFetch at h
  rcases hf : env.fetchItem id with e | p
  · rw [hf] at h; simp at h
  · rw [hf] at h
    dsimp only at h
    rcases ha : p.asAlbum with e | d
    · rw [ha] at h; simp at h
    · rw [ha] at h
      dsimp only at h
      unfold GetAlbumSongs at h
      rcases hres : getAlbumSongsRes env id with ⟨songs0, e⟩
      rw [hres] at h
      rcases e with _ | e0
      · dsimp only at h
        by_cases hpb : env.putBatchFails ((songs0.map (fun s => { s with albumArtist := (albumDto.toAlbum d).artist })).map Item.song) = true
        · simp only [hpb, if_true] at h
          simp at h
        · simp only [hpb] at h
          simp only [Bool.false_eq_true, if_false, Prod.mk.injEq] at h
          obtain ⟨⟨h1, _⟩, h2⟩ := h
          subst h1; subst h2
          refine ⟨cacheGet_cachePut_self _ _ _, ?_⟩
          simp [AlbumComplete]
      · simp at h

theorem GetAlbum_cached_complete (env : Env) (st : JState) (id : Id) (al : Album)
    (hc : cacheGet st.cache id = some (Item.album al))
    (hcomp : AlbumComplete al = true) :
    GetAlbum env st id = ((al, none), st) := by
  unfold GetAlbum
  rw [hc]
  unfold AlbumComplete at hcomp
  match hal : al.songs with
  | none => rw [hal] at hcomp; simp at hcomp
  | some l =>
    rw [hal] at hcomp
    simp only [beq_iff_eq] at hcomp
    simp [hal, hcomp]

/-- Claim C1 counterexample: under driftEnv (server-advertised AlbumCount 2,
listing returns 1 album) the first GetArtist succeeds yet the returned
artist is not ArtistComplete, and a second GetArtist for the same id
issues further CatalogSource queries — refuting the claim as stated. -/
theorem getArtist_drift_counterexample :
    (GetArtist driftEnv emptyState "a1").1.2 = none ∧
    ArtistComplete (GetArtist driftEnv emptyState "a1").1.1 = false ∧
    ((GetArtist driftEnv (GetArtist driftEnv emptyState "a1").2 "a1").2.queries ≠
      ((GetArtist driftEnv emptyState "a1").2).queries) := by decide

/-- Claim C1 (amended): after a successful GetArtist(id), whenever the
returned artist does satisfy ArtistComplete — equivalently, whenever the
server-advertised AlbumCount equals the number of albums the listing
actually returned — a second GetArtist(id) with no intervening mutation
returns the same artist and leaves the state unchanged, issuing zero
CatalogSource queries. -/
theorem getArtist_complete_second_free (env : Env) (st : JState) (id : Id) (ar : Artist) (st1 : JState)
    (h : GetArtist env st id = ((ar, none), st1))
    (hc : ArtistComplete ar = true) :
    GetArtist env st1 id = ((ar, none), st1) := by
  have hstored : cacheGet st1.cache id = some (Item.artist ar) := by
    unfold GetArtist at h
    split at h
    · rename_i ar' hget
      split at h
      · rename_i albs hal
        split at h
        · simp only [Prod.mk.injEq] at h
          obtain ⟨⟨h1, _⟩, h2⟩ := h
          subst h1; subst h2
          exact hget
        · exact getArtistFetch_stored _ _ _ _ _ h
      · exact getArtistFetch_stored _ _ _ _ _ h
    · exact getArtistFetch_stored _ _ _ _ _ h
    · exact getArtistFetch_stored _ _ _ _ _ h
  exact GetArtist_cached_complete env st1 id ar hstored hc

/-- Claim C1 witness: a concrete successful complete fetch on which the
amended theorem applies. -/
theorem getArtist_complete_second_free_witness :
    GetArtist matchedEnv c1State1 "a1" = ((c1Artist, none), c1State1) :=
  getArtist_complete_second_free matchedEnv emptyState "a1" c1Artist c1State1
    (by decide) (by decide)

/-- Claim C2: a successful GetAlbum(id) followed by a second GetAlbum(id)
with no intervening mutation returns a result equal in all fields and
leaves the state unchanged — in particular the second call issues zero
network queries, served from the cache via the len(Songs) == SongCount
completeness check (which holds by construction since GetAlbum sets
SongCount to the number of fetched songs). -/
theorem getAlbum_idempotent (env : Env) (st : JState) (id : Id) (al : Album) (st1 : JState)
    (h : GetAlbum env st id = ((al, none), st1)) :
    GetAlbum env st1 id = ((al, none), st1) := by
  have hstored : cacheGet st1.cache id = some (Item.album al) ∧ AlbumComplete al = true := by
    unfold GetAlbum at h
    split at h
    · rename_i al' hget
      split at h
      · rename_i sl hal
        split at h
        · rename_i hlen
          simp only [Prod.mk.injEq] at h
          obtain ⟨⟨h1, _⟩, h2⟩ := h
          subst h1; subst h2
          refine ⟨hget, ?_⟩
          simp [AlbumComplete, hal, hlen]
        · exact getAlbumFetch_stored _ _ _ _ _ h
      · exact getAlbumFetch_stored _ _ _ _ _ h
    · exact getAlbumFetch_stored _ _ _ _ _ h
    · exact getAlbumFetch_stored _ _ _ _ _ h
  exact GetAlbum_cached_complete env st1 id al hstored.1 hstored.2

/-- Claim C2 witness: a concrete successful album fetch on which the
idempotence theorem applies. -/
theorem getAlbum_idempotent_witness :
    GetAlbum c2Env c2State1 "al1" = ((c2Album, none), c2State1) :=
  getAlbum_idempotent c2Env emptyState "al1" c2Album c2State1 (by decide)

/-- Claim C3: when the cache slot for an id holds a non-Artist item,
GetArtist(id) evicts the slot and proceeds exactly as a cache miss: if
the fetch path (run on the state with the slot deleted) succeeds, the
whole call succeeds with that fresh artist, the artist is stored in the
cache, and remote queries were issued — no type-mismatch error reaches
the caller. -/
theorem getArtist_self_healing (env : Env) (st : JState) (id : Id) (it : Item) (ar : Artist) (st1 : JState)
    (hslot : cacheGet st.cache id = some it)
    (hnot : it.isArtist = false)
    (hfetch : getArtistFetch env { st with cache := cacheDelete st.cache id } id = ((ar, none), st1)) :
    GetArtist env st id = ((ar, none), st1) ∧
    cacheGet st1.cache id = some (Item.artist ar) ∧
    st.queries < st1.queries := by
  have hq : st.queries < st1.queries := by
    have := getArtistFetch_queries env { st with cache := cacheDelete st.cache id } id
    rw [hfetch] at this
    exact this
  have hmain : GetArtist env st id = ((ar, none), st1) := by
    unfold GetArtist
    rw [hslot]
    cases it with
    | artist a => simp [Item.isArtist] at hnot
    | album a => exact hfetch
    | song s => exact hfetch
    | playlist p => exact hfetch
  exact ⟨hmain, getArtistFetch_stored _ _ _ _ _ hfetch, hq⟩

/-- Claim C3 witness: a cache slot holding a Song is self-healed by a
concrete successful artist fetch. -/
theorem getArtist_self_healing_witness :
    GetArtist c3Env c3State "x1" = ((c3Artist, none), c3State1) ∧
    cacheGet c3State1.cache "x1" = some (Item.artist c3Artist) ∧
    c3State.queries < c3State1.queries :=
  getArtist_self_healing c3Env c3State "x1" (Item.song ⟨"x1", "Stray", "al9", "", 0⟩)
    c3Artist c3State1 (by decide) (by decide) (by decide)

/-- Claim C4: when no cache-complete artist is resident for the id and
the remote artist entity resolves but the PutBatch write of the fetched
albums fails, GetArtist(id) returns a non-nil error, the assembled
artist is not written to the cache (no cache-complete artist is resident
afterwards), and the next GetArtist(id) performs a fresh fetch (issues
at least one CatalogSource query). -/
theorem getArtist_batch_failure (env : Env) (st : JState) (id : Id) (p : Payload) (dto : artistDto)
    (hmiss : hasCompleteArtist st.cache id = false)
    (hfetch : env.fetchItem id = .ok p)
    (hdec : p.asArtist = .ok dto)
    (halb : (getArtistAlbumsRes env id).2 = none)
    (hfail : env.putBatchFails ((getArtistAlbumsRes env id).1.map Item.album) = true) :
    (GetArtist env st id).1.2 ≠ none ∧
    hasCompleteArtist (GetArtist env st id).2.cache id = false ∧
    (GetArtist env st id).2.queries < (GetArtist env (GetArtist env st id).2 id).2.queries := by
  have hdel : hasCompleteArtist (cacheDelete st.cache id) id = false := by
    unfold hasCompleteArtist
    rw [cacheGet_cacheDelete_self]
  have hmiss' := hmiss
  unfold hasCompleteArtist at hmiss'
  unfold GetArtist
  rcases hget : cacheGet st.cache id with _ | it
  · exact getArtist_batch_fail_aux env st id p dto hfetch hdec halb hfail hmiss
  · rw [hget] at hmiss'
    cases it with
    | artist ar =>
      dsimp only at hmiss' ⊢
      match hal : ar.albums with
      | none => exact getArtist_batch_fail_aux env st id p dto hfetch hdec halb hfail hmiss
      | some albs =>
        by_cases hlen : (albs.length : Int) = ar.albumCount
        · exfalso
          simp [ArtistComplete, hal, hlen] at hmiss'
        · simp only [hlen, if_false]
          exact getArtist_batch_fail_aux env _ id p dto hfetch hdec halb hfail hdel
    | album a =>
      dsimp only
      exact getArtist_batch_fail_aux env _ id p dto hfetch hdec halb hfail hdel
    | song s =>
      dsimp only
      exact getArtist_batch_fail_aux env _ id p dto hfetch hdec halb hfail hdel
    | playlist pl =>
      dsimp only
      exact getArtist_batch_fail_aux env _ id p dto hfetch hdec halb hfail hdel

/-- Claim C4 witness: a concrete run in which every batch write fails. -/
theorem getArtist_batch_failure_witness :
    (GetArtist c4Env emptyState "a1").1.2 ≠ none ∧
    hasCompleteArtist (GetArtist c4Env emptyState "a1").2.cache "a1" = false ∧
    (GetArtist c4Env emptyState "a1").2.queries <
      (GetArtist c4Env (GetArtist c4Env emptyState "a1").2 "a1").2.queries :=
  getArtist_batch_failure c4Env emptyState "a1" (artistPayload ⟨"a1", "Arty", 1⟩) ⟨"a1", "Arty", 1⟩
    (by decide) (by decide) (by decide) (by decide) (by decide)

/-- Claim C5: whenever either hop of GetSongArtistAlbum fails — the
song's Album id cannot be fetched or resolves to a non-Album variant, or
the album's Artist id cannot be fetched or resolves to a non-Artist
variant — the call returns nil for both the album and the artist
together with a non-nil error; no partial result is returned. -/
theorem sgaa_hop_failure_no_partial (env : Env) (st : JState) (s : Song)
    (h : sgaaHopFails env st s = true) :
    (GetSongArtistAlbum env st s).1.1 = none ∧
    (GetSongArtistAlbum env st s).1.2.1 = none ∧
    (GetSongArtistAlbum env st s).1.2.2.isSome = true := by
  unfold sgaaHopFails at h
  unfold GetSongArtistAlbum
  rcases h1 : GetItem env st s.album with ⟨⟨it, e⟩, st1⟩
  rw [h1] at h
  rcases e with _ | e0
  · rcases it with _ | it0
    · simp
    · cases it0 with
      | album al =>
        dsimp only at h ⊢
        rcases h2 : GetItem env { st1 with cache := cachePut st1.cache al.id (Item.album al) true } al.artist with ⟨⟨it2, e2⟩, st3⟩
        rw [h2] at h
        rcases e2 with _ | e20
        · rcases it2 with _ | it20
          · simp
          · cases it20 with
            | artist ar => simp at h
            | album a2 => simp
            | song s2 => simp
            | playlist p2 => simp
        · simp
      | artist a => simp
      | song s2 => simp
      | playlist p2 => simp
  · simp

/-- Claim C5 witness: the first hop fails on transport, and the call
returns nil album, nil artist and a non-nil error. -/
theorem sgaa_hop_failure_no_partial_witness :
    (GetSongArtistAlbum noEnv emptyState c5Song).1.1 = none ∧
    (GetSongArtistAlbum noEnv emptyState c5Song).1.2.1 = none ∧
    (GetSongArtistAlbum noEnv emptyState c5Song).1.2.2.isSome = true :=
  sgaa_hop_failure_no_partial noEnv emptyState c5Song (by decide)

/-- Claim C6: a payload whose type discriminator names the Playlist
variant — one of the four variants, with a body that decodes as a
playlist — is rejected by getItemType with an unknown-type error, and
GetItem surfaces that error instead of dispatching into the playlist
decode branch it contains; the claim that all four variants dispatch is
contradicted by the code. -/
theorem getItemType_playlist_unknown :
    getItemType c6Payload = .error ("unknown type: " ++ mediaTypePlaylist) ∧
    c6Payload.asPlaylist = .ok ⟨"p1", "List", 3⟩ ∧
    (GetItem c6Env emptyState "p1").1 =
      (none, some "invalid item type: unknown type: Playlist") := by decide

/-- Claim C7 counterexample: GetPlaylistSongs returns the decoded song
s1 but does not write it into the entity store — the subsequent direct
lookup by its Identifier is a miss, refuting the claim for the playlist
child listing. -/
theorem getPlaylistSongs_not_cached :
    (GetPlaylistSongs c7Env emptyState "p1").1 = ([⟨"s1", "Song1", "al1", "", 0⟩], none) ∧
    cacheGet (GetPlaylistSongs c7Env emptyState "p1").2.cache "s1" = none := by decide

/-- Claim C7 (amended): of the child-listing fetches, only GetAlbumSongs
opportunistically writes each decoded child into the entity store
(overwrite=true), making a subsequent direct Get by the child's
Identifier a cache hit; GetArtistAlbums and GetPlaylistSongs leave the
store untouched (the fetched albums are persisted later by GetArtist's
batch write, not by the listing itself). -/
theorem childListing_cache_effects (env : Env) (st : JState) (albumId : Id)
    (songs : List Song) (st1 : JState) (plId arId : Id)
    (h : GetAlbumSongs env st albumId = ((songs, none), st1)) :
    (∀ s ∈ songs, (cacheGet st1.cache s.id).isSome = true) ∧
    (GetPlaylistSongs env st plId).2.cache = st.cache ∧
    (GetArtistAlbums env st arId).2.cache = st.cache := by
  refine ⟨?_, ?_, rfl⟩
  · unfold GetAlbumSongs at h
    rcases hres : getAlbumSongsRes env albumId with ⟨songs0, e⟩
    rw [hres] at h
    rcases e with _ | e0
    · dsimp only at h
      simp only [Prod.mk.injEq] at h
      obtain ⟨⟨h1, _⟩, h2⟩ := h
      subst h1
      subst h2
      intro s hs
      exact foldl_songPut_mem _ _ _ hs
    · simp at h
  · unfold GetPlaylistSongs
    rcases hp : env.fetchPlaylistSongs plId with e | r
    · rfl
    · rcases r with e | d <;> rfl

/-- Claim C7 witness: a concrete successful GetAlbumSongs on which the
amended theorem applies. -/
theorem childListing_cache_effects_witness :
    (∀ s ∈ c7Songs, (cacheGet c7State1.cache s.id).isSome = true) ∧
    (GetPlaylistSongs c7wEnv emptyState "p9").2.cache = emptyState.cache ∧
    (GetArtistAlbums c7wEnv emptyState "a9").2.cache = emptyState.cache :=
  childListing_cache_effects c7wEnv emptyState "al1" c7Songs c7State1 "p9" "a9" (by decide)

/-- Claim C8: when the albums listing body fails to decode, parseAlbums
produces a decode error, yet GetArtistAlbums returns a nil error (with a
nil album slice) — the decode error is silently discarded rather than
surfaced to the caller, contradicting the propagation policy the code's
own parseAlbums error wrapping implements. -/
theorem getArtistAlbums_decode_error_discarded :
    parseAlbums (Except.error "unexpected end of JSON input") =
      Except.error "decode json: unexpected end of JSON input" ∧
    GetArtistAlbums c8Env emptyState "a1" = (([], none), ⟨[], 1⟩) := by decide

/-- Claim C9: GetSongs(page 2, pageSize 3) receives two songs; the code
assigns Index values pageSize * pageSize + i + 1 = 10, 11, not the
ordinal page * pageSize + i + 1 = 7, 8 the claim states — while the
request itself uses StartIndex = page * pageSize = 6. -/
theorem getSongs_index_uses_pageSize_squared :
    ((GetSongs c9Env emptyState 2 3).1.1.1.map Song.index) = [10, 11] ∧
    ¬ ((10 : Int) = 2 * 3 + 0 + 1) := by decide

/-- Claim C10: GetSongsById on the empty id list returns an empty song
slice together with a non-nil error, and the state is unchanged — in
particular no network query is issued, since the check precedes the
remote call. -/
theorem getSongsById_empty_rejected (env : Env) (st : JState) :
    GetSongsById env st [] = (([], some "ids cannot be empty"), st) := rfl

end Jellycli
